import Mathlib

/-!
Shallow embedding of the mbed-PID controller (src/PID.h, src/PID.cpp).
C++ `float` values are modelled as exact rationals (ℚ); every operation
mirrors the source statement by statement.
-/

namespace PIDC

/-- The fields of class `PID` (src/PID.h, protected section), in source order. -/
structure PIDState where
  usingFeedForward : Bool
  inAuto : Bool
  Kc : ℚ
  tauR : ℚ
  tauD : ℚ
  pParam : ℚ
  iParam : ℚ
  dParam : ℚ
  setPoint : ℚ
  processVariable : ℚ
  prevProcessVariable : ℚ
  controllerOutput : ℚ
  prevControllerOutput : ℚ
  inMin : ℚ
  inMax : ℚ
  inSpan : ℚ
  outMin : ℚ
  outMax : ℚ
  outSpan : ℚ
  accError : ℚ
  bias : ℚ
  tSample : ℚ
  realOutput : ℚ
deriving DecidableEq

/-- The `constrain(value, low, high)` macro of src/PID.h line 29. -/
def constrain (value low high : ℚ) : ℚ :=
  if value < low then low else if value > high then high else value

/-- `PID::setInputLimits` (src/PID.cpp lines 27-43). -/
def setInputLimits (s : PIDState) (inMin inMax : ℚ) : PIDState :=
  if inMin ≥ inMax then s
  else
    let p := s.prevProcessVariable * ((inMax - inMin) / s.inSpan)
    let a := s.accError * ((inMax - inMin) / s.inSpan)
    { s with prevProcessVariable := constrain p 0 1
             accError := a
             inMin := inMin
             inMax := inMax
             inSpan := inMax - inMin }

/-- `PID::setOutputLimits` (src/PID.cpp lines 45-60). -/
def setOutputLimits (s : PIDState) (outMin outMax : ℚ) : PIDState :=
  if outMin ≥ outMax then s
  else
    let p := s.prevControllerOutput * ((outMax - outMin) / s.outSpan)
    { s with prevControllerOutput := constrain p 0 1
             outMin := outMin
             outMax := outMax
             outSpan := outMax - outMin }

/-- `PID::setTunings` (src/PID.cpp lines 62-103). -/
def setTunings (s : PIDState) (Kc tauI tauD : ℚ) : PIDState :=
  if Kc = 0 ∨ tauI < 0 ∨ tauD < 0 then s
  else
    let tempTauR := if tauI = 0 then 0 else (1 / tauI) * s.tSample
    let accError :=
      if s.inAuto then
        if tempTauR = 0 then 0
        else s.accError * ((s.Kc * s.tauR) / (Kc * tempTauR))
      else s.accError
    { s with pParam := Kc
             iParam := tauI
             dParam := tauD
             accError := accError
             Kc := Kc
             tauR := tempTauR
             tauD := tauD / s.tSample }

/-- `PID::reset` (src/PID.cpp lines 105-124). -/
def reset (s : PIDState) : PIDState :=
  let scaledBias :=
    if s.usingFeedForward then (s.bias - s.outMin) / s.outSpan
    else (s.realOutput - s.outMin) / s.outSpan
  { s with prevControllerOutput := scaledBias
           prevProcessVariable := (s.processVariable - s.inMin) / s.inSpan
           accError := 0 }

/-- `PID::setMode` (src/PID.cpp lines 126-136). -/
def setMode (s : PIDState) (mode : Int) : PIDState :=
  let s1 := if mode ≠ 0 ∧ s.inAuto = false then reset s else s
  { s1 with inAuto := decide (mode ≠ 0) }

/-- `PID::setInterval` (src/PID.cpp lines 138-149). -/
def setInterval (s : PIDState) (interval : ℚ) : PIDState :=
  if interval > 0 then
    { s with tauR := s.tauR * (interval / s.tSample)
             accError := s.accError * (s.tSample / interval)
             tauD := s.tauD * (interval / s.tSample)
             tSample := interval }
  else s

/-- `PID::setSetPoint` (src/PID.cpp lines 151-154). -/
def setSetPoint (s : PIDState) (sp : ℚ) : PIDState :=
  { s with setPoint := sp }

/-- `PID::getSetPoint` (src/PID.cpp lines 156-159). -/
def getSetPoint (s : PIDState) : ℚ :=
  s.setPoint

/-- `PID::setProcessValue` (src/PID.cpp lines 161-164). -/
def setProcessValue (s : PIDState) (pv : ℚ) : PIDState :=
  { s with processVariable := pv }

/-- `PID::setBias` (src/PID.cpp lines 166-170). -/
def setBias (s : PIDState) (bias : ℚ) : PIDState :=
  { s with bias := bias
           usingFeedForward := true }

/-- `PID::compute` (src/PID.cpp lines 172-214): returns the successor state
and the real-world return value. Note that the source never writes
`_realOutput` here. -/
def compute (s : PIDState) : PIDState × ℚ :=
  let scaledPV := constrain ((s.processVariable - s.inMin) / s.inSpan) 0 1
  let scaledSP := constrain ((s.setPoint - s.inMin) / s.inSpan) 0 1
  let error := scaledSP - scaledPV
  let accError :=
    if ¬(s.prevControllerOutput ≥ 1 ∧ error > 0) ∧
       ¬(s.prevControllerOutput ≤ 0 ∧ error < 0) then
      s.accError + error
    else s.accError
  let dMeas := (scaledPV - s.prevProcessVariable) / s.tSample
  let scaledBias := if s.usingFeedForward then (s.bias - s.outMin) / s.outSpan else 0
  let rawOutput := scaledBias + s.Kc * (error + (s.tauR * accError) - (s.tauD * dMeas))
  let co := constrain rawOutput 0 1
  ({ s with accError := accError
            controllerOutput := co
            prevControllerOutput := co
            prevProcessVariable := scaledPV },
   co * s.outSpan + s.outMin)

/-- The scaled error computed inside `PID::compute` (src/PID.cpp lines 176-182). -/
def computeError (s : PIDState) : ℚ :=
  constrain ((s.setPoint - s.inMin) / s.inSpan) 0 1 -
    constrain ((s.processVariable - s.inMin) / s.inSpan) 0 1

/-- `PID::PID` (src/PID.cpp lines 3-25). The constructor reads
uninitialized members (`_inSpan`, `_prevProcessVariable`, ...) inside the
two `set*Limits` calls before initializing them, so the embedding takes the
arbitrary pre-construction field contents as an explicit argument `g`;
every field the constructor actually determines is independent of `g`. -/
def construct (g : PIDState) (Kc tauI tauD interval : ℚ) : PIDState :=
  let s0 := { g with usingFeedForward := false, inAuto := false }
  let s1 := setInputLimits s0 0 (33/10)
  let s2 := setOutputLimits s1 0 (33/10)
  let s3 := { s2 with tSample := interval }
  let s4 := setTunings s3 Kc tauI tauD
  { s4 with setPoint := 0
            processVariable := 0
            prevProcessVariable := 0
            controllerOutput := 0
            prevControllerOutput := 0
            accError := 0
            bias := 0
            realOutput := 0 }

/-- An all-zero record standing for one particular choice of the
pre-construction memory contents. -/
def g0 : PIDState where
  usingFeedForward := false
  inAuto := false
  Kc := 0
  tauR := 0
  tauD := 0
  pParam := 0
  iParam := 0
  dParam := 0
  setPoint := 0
  processVariable := 0
  prevProcessVariable := 0
  controllerOutput := 0
  prevControllerOutput := 0
  inMin := 0
  inMax := 0
  inSpan := 0
  outMin := 0
  outMax := 0
  outSpan := 0
  accError := 0
  bias := 0
  tSample := 0
  realOutput := 0

/-- States reachable through the public interface: any constructor call
followed by any sequence of member-function calls. -/
inductive Reachable : PIDState → Prop where
  | init (g : PIDState) (Kc tauI tauD interval : ℚ) :
      Reachable (construct g Kc tauI tauD interval)
  | inputLimits (s : PIDState) (lo hi : ℚ) :
      Reachable s → Reachable (setInputLimits s lo hi)
  | outputLimits (s : PIDState) (lo hi : ℚ) :
      Reachable s → Reachable (setOutputLimits s lo hi)
  | tunings (s : PIDState) (Kc tauI tauD : ℚ) :
      Reachable s → Reachable (setTunings s Kc tauI tauD)
  | doReset (s : PIDState) :
      Reachable s → Reachable (reset s)
  | mode (s : PIDState) (m : Int) :
      Reachable s → Reachable (setMode s m)
  | interval (s : PIDState) (i : ℚ) :
      Reachable s → Reachable (setInterval s i)
  | sp (s : PIDState) (v : ℚ) :
      Reachable s → Reachable (setSetPoint s v)
  | pv (s : PIDState) (v : ℚ) :
      Reachable s → Reachable (setProcessValue s v)
  | biasStep (s : PIDState) (b : ℚ) :
      Reachable s → Reachable (setBias s b)
  | computeStep (s : PIDState) :
      Reachable s → Reachable (compute s).1

/-- The state built by `PID pid(2.0, 5.0, 1.0, 1.0)`. -/
def s1 : PIDState := construct g0 2 5 1 1

/-- Explicit contents of `s1`. -/
def s1Lit : PIDState :=
  ⟨false, false, 2, 1/5, 1, 2, 5, 1, 0, 0, 0, 0, 0, 0, 33/10, 33/10, 0, 33/10, 33/10, 0, 0, 1, 0⟩

lemma s1_eq : s1 = s1Lit := by
  norm_num [s1, s1Lit, construct, setInputLimits, setOutputLimits, setTunings, constrain, g0]

/-- The state of the §8 scenario right before the first `compute()`:
`setSetPoint(1.65); setProcessValue(0.0); setMode(AUTO_MODE)` on `s1`. -/
def c2state : PIDState := setMode (setProcessValue (setSetPoint s1 (165/100)) 0) 1

/-- Explicit contents of `c2state`. -/
def c2stateLit : PIDState :=
  ⟨false, true, 2, 1/5, 1, 2, 5, 1, 33/20, 0, 0, 0, 0, 0, 33/10, 33/10, 0, 33/10, 33/10, 0, 0, 1, 0⟩

lemma c2state_eq : c2state = c2stateLit := by
  rw [c2state, s1_eq]
  norm_num [setSetPoint, setProcessValue, setMode, reset, s1Lit, c2stateLit]

/-- Explicit contents of the state after the scenario's first `compute()`. -/
def c2afterLit : PIDState :=
  ⟨false, true, 2, 1/5, 1, 2, 5, 1, 33/20, 0, 0, 1, 1, 0, 33/10, 33/10, 0, 33/10, 33/10, 1/2, 0, 1, 0⟩

lemma compute_c2state_eq : compute c2state = (c2afterLit, 33/10) := by
  rw [c2state_eq]
  norm_num [compute, constrain, c2stateLit, c2afterLit]

/-- The state after the scenario's first `compute()`. -/
def c2after : PIDState := (compute c2state).1

lemma c2after_eq : c2after = c2afterLit := by
  rw [c2after, compute_c2state_eq]

/-- Feed-forward enabled with a bias far above the output limits, then a
manual-to-automatic transition (which runs `reset`). -/
def c3ex : PIDState := setMode (setBias s1 100) 1

lemma c3ex_prevControllerOutput : c3ex.prevControllerOutput = 1000/33 := by
  rw [c3ex, s1_eq]
  norm_num [setBias, setMode, reset, s1Lit]

lemma constrain_nonneg_le_one (v : ℚ) : 0 ≤ constrain v 0 1 ∧ constrain v 0 1 ≤ 1 := by
  unfold constrain
  split_ifs <;> constructor <;> linarith

lemma outFields_setInputLimits (s : PIDState) (lo hi : ℚ) :
    (setInputLimits s lo hi).outMin = s.outMin ∧
    (setInputLimits s lo hi).outMax = s.outMax ∧
    (setInputLimits s lo hi).outSpan = s.outSpan := by
  unfold setInputLimits
  split <;> simp

lemma outFields_setTunings (s : PIDState) (Kc tauI tauD : ℚ) :
    (setTunings s Kc tauI tauD).outMin = s.outMin ∧
    (setTunings s Kc tauI tauD).outMax = s.outMax ∧
    (setTunings s Kc tauI tauD).outSpan = s.outSpan := by
  unfold setTunings
  split <;> simp

lemma outFields_reset (s : PIDState) :
    (reset s).outMin = s.outMin ∧ (reset s).outMax = s.outMax ∧
    (reset s).outSpan = s.outSpan := by
  simp [reset]

lemma outFields_setMode (s : PIDState) (m : Int) :
    (setMode s m).outMin = s.outMin ∧ (setMode s m).outMax = s.outMax ∧
    (setMode s m).outSpan = s.outSpan := by
  unfold setMode
  split <;> simp [reset]

lemma outFields_setInterval (s : PIDState) (i : ℚ) :
    (setInterval s i).outMin = s.outMin ∧ (setInterval s i).outMax = s.outMax ∧
    (setInterval s i).outSpan = s.outSpan := by
  unfold setInterval
  split <;> simp

lemma outFields_compute (s : PIDState) :
    (compute s).1.outMin = s.outMin ∧ (compute s).1.outMax = s.outMax ∧
    (compute s).1.outSpan = s.outSpan := by
  simp [compute]

/-- Every field the constructor determines, independently of the arbitrary
pre-construction contents `g` and of whether the initial tunings are valid. -/
lemma construct_fields (g : PIDState) (Kc tauI tauD interval : ℚ) :
    (construct g Kc tauI tauD interval).usingFeedForward = false ∧
    (construct g Kc tauI tauD interval).inAuto = false ∧
    (construct g Kc tauI tauD interval).inMin = 0 ∧
    (construct g Kc tauI tauD interval).inMax = 33/10 ∧
    (construct g Kc tauI tauD interval).inSpan = 33/10 ∧
    (construct g Kc tauI tauD interval).outMin = 0 ∧
    (construct g Kc tauI tauD interval).outMax = 33/10 ∧
    (construct g Kc tauI tauD interval).outSpan = 33/10 ∧
    (construct g Kc tauI tauD interval).setPoint = 0 ∧
    (construct g Kc tauI tauD interval).processVariable = 0 ∧
    (construct g Kc tauI tauD interval).prevProcessVariable = 0 ∧
    (construct g Kc tauI tauD interval).controllerOutput = 0 ∧
    (construct g Kc tauI tauD interval).prevControllerOutput = 0 ∧
    (construct g Kc tauI tauD interval).accError = 0 ∧
    (construct g Kc tauI tauD interval).bias = 0 ∧
    (construct g Kc tauI tauD interval).realOutput = 0 ∧
    (construct g Kc tauI tauD interval).tSample = interval := by
  unfold construct setTunings
  split <;> norm_num [setInputLimits, setOutputLimits]

/-- The output limits of every reachable state are well-formed: strictly
ordered, with `outSpan` caching their difference. -/
lemma reachable_out_inv (s : PIDState) (h : Reachable s) :
    s.outMin < s.outMax ∧ s.outSpan = s.outMax - s.outMin := by
  induction h with
  | init g Kc tauI tauD interval =>
      obtain ⟨-, -, -, -, -, e6, e7, e8, -⟩ := construct_fields g Kc tauI tauD interval
      rw [e6, e7, e8]
      norm_num
  | inputLimits s lo hi hr ih =>
      obtain ⟨e1, e2, e3⟩ := outFields_setInputLimits s lo hi
      rw [e1, e2, e3]; exact ih
  | outputLimits s lo hi hr ih =>
      unfold setOutputLimits
      split
      · exact ih
      · next hcond => simpa using not_le.mp hcond
  | tunings s Kc tauI tauD hr ih =>
      obtain ⟨e1, e2, e3⟩ := outFields_setTunings s Kc tauI tauD
      rw [e1, e2, e3]; exact ih
  | doReset s hr ih =>
      obtain ⟨e1, e2, e3⟩ := outFields_reset s
      rw [e1, e2, e3]; exact ih
  | mode s m hr ih =>
      obtain ⟨e1, e2, e3⟩ := outFields_setMode s m
      rw [e1, e2, e3]; exact ih
  | interval s i hr ih =>
      obtain ⟨e1, e2, e3⟩ := outFields_setInterval s i
      rw [e1, e2, e3]; exact ih
  | sp s v hr ih =>
      simpa [setSetPoint] using ih
  | pv s v hr ih =>
      simpa [setProcessValue] using ih
  | biasStep s b hr ih =>
      simpa [setBias] using ih
  | computeStep s hr ih =>
      obtain ⟨e1, e2, e3⟩ := outFields_compute s
      rw [e1, e2, e3]; exact ih

lemma compute_snd_bounds (s : PIDState) (h1 : s.outMin < s.outMax)
    (h2 : s.outSpan = s.outMax - s.outMin) :
    s.outMin ≤ (compute s).2 ∧ (compute s).2 ≤ s.outMax := by
  have key : ∀ r : ℚ, s.outMin ≤ constrain r 0 1 * s.outSpan + s.outMin ∧
      constrain r 0 1 * s.outSpan + s.outMin ≤ s.outMax := by
    intro r
    obtain ⟨ha, hb⟩ := constrain_nonneg_le_one r
    have hs : 0 ≤ s.outSpan := by rw [h2]; linarith
    have hm : constrain r 0 1 * s.outSpan ≤ s.outSpan := mul_le_of_le_one_left hs hb
    have hn : 0 ≤ constrain r 0 1 * s.outSpan := mul_nonneg ha hs
    constructor <;> linarith
  exact key _

/-- Claim C1: for every reachable controller state (in particular the stored
output limits of such a state satisfy `outMin < outMax`), the value returned
by `compute()` lies in the closed interval `[outMin, outMax]`; `compute` is a
total function of the state, so it never fails for any finite process value
and setpoint. -/
theorem compute_result_in_output_limits (s : PIDState) (h : Reachable s) :
    s.outMin ≤ (compute s).2 ∧ (compute s).2 ≤ s.outMax := by
  obtain ⟨h1, h2⟩ := reachable_out_inv s h
  exact compute_snd_bounds s h1 h2

theorem compute_result_in_output_limits_witness :
    s1.outMin ≤ (compute s1).2 ∧ (compute s1).2 ≤ s1.outMax :=
  compute_result_in_output_limits s1 (Reachable.init g0 2 5 1 1)

/-- Claim C2 (code-bug evidence): in the §8 scenario the first `compute()`
returns `3.3`, so by the claim the following `reset()` must store
`(3.3 - outMin)/outSpan = 1` into `prevControllerOutput`; the code stores `0`,
because `compute()` never writes the returned value into `_realOutput`
(`_realOutput` keeps its constructor value `0.0` forever). -/
theorem reset_ignores_last_compute_output :
    (compute c2state).2 = 33/10 ∧
    ((compute c2state).2 - c2after.outMin) / c2after.outSpan = 1 ∧
    (reset c2after).prevControllerOutput = 0 ∧
    c2after.realOutput = 0 := by
  rw [c2after_eq, compute_c2state_eq]
  norm_num [reset, c2afterLit]

/-- Claim C3 (counterexample): a reachable mutation that leaves a stored
scaled quantity outside `[0,1]` — after `setBias(100)` and a manual-to-auto
`setMode(1)` (which runs `reset`), `prevControllerOutput` holds
`(100 - 0)/3.3 = 1000/33 > 1`, because `reset` stores the scaled bias
unclamped. -/
theorem scaled_state_in_unit_interval_cex :
    c3ex.prevControllerOutput = 1000/33 ∧ ¬(c3ex.prevControllerOutput ≤ 1) := by
  rw [c3ex_prevControllerOutput]
  norm_num

/-- Claim C3 (amended): the operations that do clamp keep their stores in
`[0,1]`: `setInputLimits` (valid limits) clamps the rescaled
`prevScaledProcessVariable`, `setOutputLimits` (valid limits) clamps the
rescaled `prevControllerOutput`, and `compute` stores `controllerOutput`,
`prevControllerOutput` and `prevScaledProcessVariable` clamped; `reset`
stores unclamped values and `accumulatedError` is never clamped. -/
theorem clamped_stores_in_unit_interval (s : PIDState) (lo hi lo2 hi2 : ℚ)
    (h1 : lo < hi) (h2 : lo2 < hi2) :
    (0 ≤ (setInputLimits s lo hi).prevProcessVariable ∧
      (setInputLimits s lo hi).prevProcessVariable ≤ 1) ∧
    (0 ≤ (setOutputLimits s lo2 hi2).prevControllerOutput ∧
      (setOutputLimits s lo2 hi2).prevControllerOutput ≤ 1) ∧
    (0 ≤ (compute s).1.controllerOutput ∧ (compute s).1.controllerOutput ≤ 1) ∧
    (0 ≤ (compute s).1.prevControllerOutput ∧
      (compute s).1.prevControllerOutput ≤ 1) ∧
    (0 ≤ (compute s).1.prevProcessVariable ∧
      (compute s).1.prevProcessVariable ≤ 1) := by
  refine ⟨?_, ?_, ?_, ?_, ?_⟩
  · unfold setInputLimits
    rw [if_neg (not_le.mpr h1)]
    simpa using constrain_nonneg_le_one _
  · unfold setOutputLimits
    rw [if_neg (not_le.mpr h2)]
    simpa using constrain_nonneg_le_one _
  · simp only [compute]
    exact constrain_nonneg_le_one _
  · simp only [compute]
    exact constrain_nonneg_le_one _
  · simp only [compute]
    exact constrain_nonneg_le_one _

theorem clamped_stores_in_unit_interval_witness :
    (0:ℚ) < 1 ∧
    ((0 ≤ (setInputLimits s1 0 1).prevProcessVariable ∧
       (setInputLimits s1 0 1).prevProcessVariable ≤ 1) ∧
     (0 ≤ (setOutputLimits s1 0 1).prevControllerOutput ∧
       (setOutputLimits s1 0 1).prevControllerOutput ≤ 1) ∧
     (0 ≤ (compute s1).1.controllerOutput ∧ (compute s1).1.controllerOutput ≤ 1) ∧
     (0 ≤ (compute s1).1.prevControllerOutput ∧
       (compute s1).1.prevControllerOutput ≤ 1) ∧
     (0 ≤ (compute s1).1.prevProcessVariable ∧
       (compute s1).1.prevProcessVariable ≤ 1)) :=
  ⟨by norm_num,
   clamped_stores_in_unit_interval s1 0 1 0 1 (by norm_num) (by norm_num)⟩

/-- Claim C4: every invalid configuration request is an atomic silent no-op:
`setInputLimits`/`setOutputLimits` with `min ≥ max`, `setTunings` with
`Kc = 0` or `tauI < 0` or `tauD < 0`, and `setInterval` with
`interval ≤ 0` leave the whole state record exactly as it was, and the
member functions return no error (they are `void` in the source). -/
theorem invalid_config_is_silent_noop (s : PIDState) (lo hi Kc tauI tauD iv : ℚ)
    (h1 : lo ≥ hi) (h2 : Kc = 0 ∨ tauI < 0 ∨ tauD < 0) (h3 : iv ≤ 0) :
    setInputLimits s lo hi = s ∧ setOutputLimits s lo hi = s ∧
    setTunings s Kc tauI tauD = s ∧ setInterval s iv = s := by
  refine ⟨?_, ?_, ?_, ?_⟩
  · unfold setInputLimits
    rw [if_pos h1]
  · unfold setOutputLimits
    rw [if_pos h1]
  · unfold setTunings
    rw [if_pos h2]
  · unfold setInterval
    rw [if_neg (not_lt.mpr h3)]

theorem invalid_config_is_silent_noop_witness :
    (1:ℚ) ≥ 0 ∧ ((0:ℚ) = 0 ∨ (0:ℚ) < 0 ∨ (0:ℚ) < 0) ∧ (0:ℚ) ≤ 0 ∧
    (setInputLimits g0 1 0 = g0 ∧ setOutputLimits g0 1 0 = g0 ∧
     setTunings g0 0 0 0 = g0 ∧ setInterval g0 0 = g0) :=
  ⟨by norm_num, Or.inl rfl, le_refl 0,
   invalid_config_is_silent_noop g0 1 0 0 0 0 0 (by norm_num) (Or.inl rfl)
     (le_refl 0)⟩

/-- Claim C5: in every `compute()` call the current scaled error is added to
`accumulatedError` unless the previous controller output is saturated at `1`
with positive error or saturated at `0` with negative error; in particular,
with `prevControllerOutput ≥ 1` on entry and positive error, the accumulated
error is unchanged. -/
theorem compute_antiwindup (s : PIDState) :
    ((compute s).1.accError =
      if ¬(s.prevControllerOutput ≥ 1 ∧ computeError s > 0) ∧
         ¬(s.prevControllerOutput ≤ 0 ∧ computeError s < 0) then
        s.accError + computeError s
      else s.accError) ∧
    (s.prevControllerOutput ≥ 1 → computeError s > 0 →
      (compute s).1.accError = s.accError) := by
  have h1 : (compute s).1.accError =
      if ¬(s.prevControllerOutput ≥ 1 ∧ computeError s > 0) ∧
         ¬(s.prevControllerOutput ≤ 0 ∧ computeError s < 0) then
        s.accError + computeError s
      else s.accError := by
    simp only [compute, computeError]
  refine ⟨h1, fun hp he => ?_⟩
  rw [h1, if_neg]
  exact fun hc => hc.1 ⟨hp, he⟩

theorem compute_antiwindup_witness :
    c2after.prevControllerOutput ≥ 1 ∧ computeError c2after > 0 ∧
    (compute c2after).1.accError = c2after.accError :=
  ⟨by rw [c2after_eq]; norm_num [c2afterLit],
   by rw [c2after_eq]; norm_num [computeError, constrain, c2afterLit],
   (compute_antiwindup c2after).2
     (by rw [c2after_eq]; norm_num [c2afterLit])
     (by rw [c2after_eq]; norm_num [computeError, constrain, c2afterLit])⟩

/-- Claim C6 (counterexample): in the §8 scenario —
`PID(2.0, 5.0, 1.0, 1.0)`, default limits, `setSetPoint(1.65)`,
`setProcessValue(0.0)`, automatic mode — the first `compute()` returns
exactly `3.3`, not a value strictly less than `3.3`: the raw output
`2·(0.5 + 0.2·0.5) = 1.2` saturates at the upper clamp. -/
theorem first_compute_scenario_cex :
    (compute c2state).2 = 33/10 ∧ ¬((compute c2state).2 < 33/10) := by
  rw [compute_c2state_eq]
  norm_num

/-- Claim C6 (amended): the scenario's first `compute()` returns a value
strictly greater than `0.0` and at most `3.3`; it is exactly `3.3`. -/
theorem first_compute_scenario_amended :
    0 < (compute c2state).2 ∧ (compute c2state).2 = 33/10 := by
  rw [compute_c2state_eq]
  norm_num

/-- Claim C7: for a state with sample interval `i > 0` and a new interval
`i2 > 0`, `setInterval(i2)` multiplies `tauR` and `tauD` by `i2/i`,
multiplies `accumulatedError` by `i/i2`, and stores `i2` as the sample
interval. -/
theorem setInterval_rescales (s : PIDState) (i2 : ℚ)
    (h1 : 0 < s.tSample) (h2 : 0 < i2) :
    (setInterval s i2).tauR = s.tauR * (i2 / s.tSample) ∧
    (setInterval s i2).tauD = s.tauD * (i2 / s.tSample) ∧
    (setInterval s i2).accError = s.accError * (s.tSample / i2) ∧
    (setInterval s i2).tSample = i2 := by
  unfold setInterval
  rw [if_pos h2]
  simp

theorem setInterval_rescales_witness :
    0 < c2after.tSample ∧ 0 < (2:ℚ) ∧
    ((setInterval c2after 2).tauR = c2after.tauR * (2 / c2after.tSample) ∧
     (setInterval c2after 2).tauD = c2after.tauD * (2 / c2after.tSample) ∧
     (setInterval c2after 2).accError = c2after.accError * (c2after.tSample / 2) ∧
     (setInterval c2after 2).tSample = 2) :=
  ⟨by rw [c2after_eq]; norm_num [c2afterLit], by norm_num,
   setInterval_rescales c2after 2
     (by rw [c2after_eq]; norm_num [c2afterLit]) (by norm_num)⟩

/-- Claim C8: a valid `setTunings(Kc, tauI, tauD)` call sets
`tauR = (1/tauI)·tSample` for `tauI > 0` and `0` for `tauI = 0`, sets the
derived derivative time to `tauD/tSample`, stores the raw parameters, and —
only in automatic mode — rescales `accumulatedError` by
`(oldKc·oldTauR)/(newKc·newTauR)` when the new `tauR` is nonzero, zeroing it
when the new `tauR` is zero; in manual mode `accumulatedError` is unchanged. -/
theorem setTunings_bumpless (s : PIDState) (Kc tauI tauD : ℚ)
    (hK : Kc ≠ 0) (hI : 0 ≤ tauI) (hD : 0 ≤ tauD) :
    (setTunings s Kc tauI tauD).tauR =
      (if tauI = 0 then 0 else (1 / tauI) * s.tSample) ∧
    (setTunings s Kc tauI tauD).tauD = tauD / s.tSample ∧
    (setTunings s Kc tauI tauD).pParam = Kc ∧
    (setTunings s Kc tauI tauD).iParam = tauI ∧
    (setTunings s Kc tauI tauD).dParam = tauD ∧
    (setTunings s Kc tauI tauD).Kc = Kc ∧
    (s.inAuto = true → (if tauI = 0 then (0:ℚ) else (1 / tauI) * s.tSample) = 0 →
      (setTunings s Kc tauI tauD).accError = 0) ∧
    (s.inAuto = true → (if tauI = 0 then (0:ℚ) else (1 / tauI) * s.tSample) ≠ 0 →
      (setTunings s Kc tauI tauD).accError =
        s.accError * ((s.Kc * s.tauR) /
          (Kc * (if tauI = 0 then 0 else (1 / tauI) * s.tSample)))) ∧
    (s.inAuto = false → (setTunings s Kc tauI tauD).accError = s.accError) := by
  have hcond : ¬(Kc = 0 ∨ tauI < 0 ∨ tauD < 0) := by
    push_neg
    exact ⟨hK, hI, hD⟩
  have hacc : (setTunings s Kc tauI tauD).accError =
      if s.inAuto then
        (if (if tauI = 0 then (0:ℚ) else (1 / tauI) * s.tSample) = 0 then 0
         else s.accError * ((s.Kc * s.tauR) /
           (Kc * (if tauI = 0 then 0 else (1 / tauI) * s.tSample))))
      else s.accError := by
    unfold setTunings
    rw [if_neg hcond]
  refine ⟨?_, ?_, ?_, ?_, ?_, ?_, ?_, ?_, ?_⟩
  · unfold setTunings
    rw [if_neg hcond]
  · unfold setTunings
    rw [if_neg hcond]
  · unfold setTunings
    rw [if_neg hcond]
  · unfold setTunings
    rw [if_neg hcond]
  · unfold setTunings
    rw [if_neg hcond]
  · unfold setTunings
    rw [if_neg hcond]
  · intro ha htr
    rw [hacc, ha, if_pos rfl, if_pos htr]
  · intro ha htr
    rw [hacc, ha, if_pos rfl, if_neg htr]
  · intro ha
    rw [hacc, ha, if_neg Bool.false_ne_true]

theorem setTunings_bumpless_witness :
    (4:ℚ) ≠ 0 ∧ (0:ℚ) ≤ 10 ∧ (0:ℚ) ≤ 0 ∧
    c2after.inAuto = true ∧
    (if (10:ℚ) = 0 then (0:ℚ) else (1 / 10) * c2after.tSample) ≠ 0 ∧
    (setTunings c2after 4 10 0).accError =
      c2after.accError * ((c2after.Kc * c2after.tauR) /
        (4 * (if (10:ℚ) = 0 then 0 else (1 / 10) * c2after.tSample))) :=
  ⟨by norm_num, by norm_num, le_refl 0,
   by rw [c2after_eq]; simp [c2afterLit],
   by rw [c2after_eq]; norm_num [c2afterLit],
   (setTunings_bumpless c2after 4 10 0 (by norm_num) (by norm_num)
       (le_refl 0)).2.2.2.2.2.2.2.1
     (by rw [c2after_eq]; simp [c2afterLit])
     (by rw [c2after_eq]; norm_num [c2afterLit])⟩

/-- Claim C9: `setMode(mode)` with `mode ≠ 0` from manual mode runs `reset()`
and then sets the automatic flag; with `mode ≠ 0` from automatic mode it
changes nothing; and `setMode(0)` changes no field other than clearing the
automatic flag. -/
theorem setMode_transition (s : PIDState) (mode : Int) :
    (mode ≠ 0 → s.inAuto = false →
      setMode s mode = { reset s with inAuto := true }) ∧
    (mode ≠ 0 → s.inAuto = true → setMode s mode = s) ∧
    (mode = 0 → setMode s mode = { s with inAuto := false }) := by
  refine ⟨?_, ?_, ?_⟩
  · intro hm ha
    unfold setMode
    rw [if_pos ⟨hm, ha⟩, decide_eq_true hm]
  · intro hm ha
    unfold setMode
    rw [if_neg (by simp [ha]), decide_eq_true hm, ← ha]
  · intro hm
    subst hm
    unfold setMode
    rw [if_neg (by simp)]
    rfl

theorem setMode_transition_witness :
    (1:Int) ≠ 0 ∧ s1.inAuto = false ∧
    setMode s1 1 = { reset s1 with inAuto := true } :=
  ⟨one_ne_zero, by rw [s1_eq]; simp [s1Lit],
   (setMode_transition s1 1).1 one_ne_zero (by rw [s1_eq]; simp [s1Lit])⟩

/-- Claim C10: for all constructor arguments, the freshly constructed
controller is in manual mode with feed-forward disabled, has input and output
limits `[0, 3.3]` (span `3.3`), zero setpoint, process value, previous scaled
process value, controller outputs, accumulated error, bias and last real
output, and its sample interval is the `interval` argument — independently of
the arbitrary pre-construction memory contents `g`. -/
theorem construct_initial_state (g : PIDState) (Kc tauI tauD interval : ℚ) :
    (construct g Kc tauI tauD interval).usingFeedForward = false ∧
    (construct g Kc tauI tauD interval).inAuto = false ∧
    (construct g Kc tauI tauD interval).inMin = 0 ∧
    (construct g Kc tauI tauD interval).inMax = 33/10 ∧
    (construct g Kc tauI tauD interval).inSpan = 33/10 ∧
    (construct g Kc tauI tauD interval).outMin = 0 ∧
    (construct g Kc tauI tauD interval).outMax = 33/10 ∧
    (construct g Kc tauI tauD interval).outSpan = 33/10 ∧
    (construct g Kc tauI tauD interval).setPoint = 0 ∧
    (construct g Kc tauI tauD interval).processVariable = 0 ∧
    (construct g Kc tauI tauD interval).prevProcessVariable = 0 ∧
    (construct g Kc tauI tauD interval).controllerOutput = 0 ∧
    (construct g Kc tauI tauD interval).prevControllerOutput = 0 ∧
    (construct g Kc tauI tauD interval).accError = 0 ∧
    (construct g Kc tauI tauD interval).bias = 0 ∧
    (construct g Kc tauI tauD interval).realOutput = 0 ∧
    (construct g Kc tauI tauD interval).tSample = interval :=
  construct_fields g Kc tauI tauD interval

end PIDC
